import Mathlib

/-!
Verification of the `roc_sndio` sink layer of roc-toolkit.

The development shallowly embeds `SoxSink` from
`src/internal_modules/roc_sndio/target_sox/roc_sndio/sox_sink.cpp`:
its constructor, `open`, `open_`, `setup_buffer_`, `write`, `write_`,
`state` and `sample_spec`.  The sox library itself is external; we model
its observable interface: `sox_open_write` is represented by an optional
`SoxFormat` response (the signal the backend actually negotiated plus the
device flag), and `sox_write` by an oracle `ok : Nat → Bool` telling, for
each successive backend write call, whether all samples were accepted,
together with a `BackendSt` log of the sample counts handed to the
backend.  The pulseaudio device bridge exists in the sources only as a
header (`pulseaudio_device.h`), so the bridge state mapping is modelled
from the spec where noted.

Machine integers (`size_t`, `unsigned long`) are modelled as `Nat`; none
of the modelled code paths can overflow them on the inputs considered.
`roc_panic` is modelled as `Except.error`.
-/

set_option maxHeartbeats 1000000

/-- Status codes of `roc_status` used by the sink (subset). -/
inductive StatusCode where
  | StatusOK
  | StatusErrFile
  | StatusErrDevice
deriving DecidableEq, Repr

/-- Device states of `roc_sndio` (subset listed by the spec). -/
inductive DeviceState where
  | DeviceState_Active
  | DeviceState_Paused
  | DeviceState_Closed
deriving DecidableEq, Repr

/-- Driver type passed to the `SoxSink` constructor. -/
inductive DriverType where
  | DriverType_File
  | DriverType_Device
deriving DecidableEq, Repr

/-- Sample formats: the raw fixed-point format supported by the sink, an
unset format (zero value), and a stand-in for any other concrete format. -/
inductive PcmFormat where
  | Sample_InvalidFormat
  | Sample_RawFormat
  | Sample_OtherFormat
deriving DecidableEq, Repr

/-- Sample specification: rate in Hz, number of channels, sample format.
The channel set of the source (layout, order, mask) is represented by the
channel count it induces, which is all the sink code observes. -/
structure SampleSpec where
  rate : Nat
  channels : Nat
  format : PcmFormat
deriving DecidableEq, Repr

/-- SampleSpec::is_raw from the source: the format is the raw format. -/
def SampleSpec.is_raw (s : SampleSpec) : Bool :=
  s.format = PcmFormat.Sample_RawFormat

/-- Modelled from the spec: `SampleSpec::use_defaults` belongs to the
sample-format utilities, which the spec declares out-of-scope collaborators
of the sink ("sample spec override (rate/channels/format; zero means accept
device default)").  Each unset field of the spec is replaced by the
corresponding supplied default; a zero default leaves the field unset.  The
stereo channel-mask default of the source call site is represented by the
channel count 2 it induces. -/
def SampleSpec.use_defaults (s : SampleSpec) (defFormat : PcmFormat)
    (defChannels : Nat) (defRate : Nat) : SampleSpec :=
  { format := if s.format = PcmFormat.Sample_InvalidFormat then defFormat else s.format
    channels := if s.channels = 0 then defChannels else s.channels
    rate := if s.rate = 0 then defRate else s.rate }

/-- Modelled from the spec: `SampleSpec::ns_2_samples_overall` belongs to
the out-of-scope sample utilities; the spec records only that a frame
length in nanoseconds has a "derived sample count".  We derive the count
across all channels: duration times rate over one second, times the number
of channels. -/
def SampleSpec.ns_2_samples_overall (s : SampleSpec) (ns : Nat) : Nat :=
  ns * s.rate / 1000000000 * s.channels

/-- Sink configuration (the fields of `sndio::Config` read by `SoxSink`).
Durations are nanoseconds; the source type is signed but the sink only
distinguishes zero from nonzero, so `Nat` suffices. -/
structure Config where
  latency : Nat
  frame_length : Nat
  sample_spec : SampleSpec
deriving DecidableEq, Repr

/-- The backend response to `sox_open_write`: the `sox_format_t` fields the
sink reads — the negotiated `signal.rate` and `signal.channels`, and
whether `handler.flags` has `SOX_FILE_DEVICE` set. -/
structure SoxFormat where
  signal_rate : Nat
  signal_channels : Nat
  is_device : Bool
deriving DecidableEq, Repr

/-- State of a `SoxSink` object.  `output_` is the `sox_format_t*` handle
(`none` = `NULL`); `buffer_len` is `buffer_.size()`; the remaining fields
mirror the members of the class.  `out_signal_rate` / `out_signal_channels`
are the fields of `out_signal_` passed to `sox_open_write`. -/
structure SoxSink where
  output_ : Option SoxFormat
  buffer_len : Nat
  buffer_size_ : Nat
  is_file_ : Bool
  valid_ : Bool
  sample_spec_ : SampleSpec
  frame_length_ : Nat
  out_signal_rate : Nat
  out_signal_channels : Nat
deriving DecidableEq, Repr

/-- The member-initialiser state of the constructor: null output, empty
buffer, zero buffer size, not a file, not valid; the other members are
default-initialised (the source leaves `out_signal_` unset until the
`memset`, which we render as zero). -/
def SoxSink.init : SoxSink :=
  { output_ := none
    buffer_len := 0
    buffer_size_ := 0
    is_file_ := false
    valid_ := false
    sample_spec_ := { rate := 0, channels := 0, format := PcmFormat.Sample_InvalidFormat }
    frame_length_ := 0
    out_signal_rate := 0
    out_signal_channels := 0 }

/-- SoxSink::SoxSink.  Rejects a nonzero latency, copies the configured
sample spec, applies defaults (raw format, stereo channel mask, and rate
44100 for files / 0 for devices), rejects non-raw formats and a zero frame
length, then fills `out_signal_` from the spec and marks the sink valid. -/
def SoxSink.construct (config : Config) (type : DriverType) : SoxSink :=
  if config.latency ≠ 0 then SoxSink.init
  else
    let spec := SampleSpec.use_defaults config.sample_spec PcmFormat.Sample_RawFormat 2
      (if type = DriverType.DriverType_File then 44100 else 0)
    if ¬ spec.is_raw then { SoxSink.init with sample_spec_ := spec }
    else if config.frame_length = 0 then
      { SoxSink.init with sample_spec_ := spec, frame_length_ := config.frame_length }
    else
      { SoxSink.init with
          sample_spec_ := spec
          frame_length_ := config.frame_length
          out_signal_rate := spec.rate
          out_signal_channels := spec.channels
          valid_ := true }

/-- SoxSink::open_.  `resp` is the backend's answer to `sox_open_write`.
On a null handle: failure.  Otherwise the file flag is derived from the
handler flags; a caller-requested nonzero rate or channel count that
differs from the negotiated one is a failure; on success the sample spec
is updated to the negotiated rate and channel count. -/
def SoxSink.open_ (s : SoxSink) (resp : Option SoxFormat) : SoxSink × Bool :=
  match resp with
  | none => ({ s with output_ := none }, false)
  | some fmt =>
    if s.out_signal_rate ≠ 0 ∧ s.out_signal_rate ≠ fmt.signal_rate then
      ({ s with output_ := some fmt, is_file_ := !fmt.is_device }, false)
    else if s.out_signal_channels ≠ 0 ∧ s.out_signal_channels ≠ fmt.signal_channels then
      ({ s with output_ := some fmt, is_file_ := !fmt.is_device }, false)
    else
      ({ s with
          output_ := some fmt
          is_file_ := !fmt.is_device
          sample_spec_ :=
            { rate := fmt.signal_rate
              channels := fmt.signal_channels
              format := s.sample_spec_.format } }, true)

/-- SoxSink::setup_buffer_.  Derives the buffer size from the frame length
at the (by now negotiated) sample spec; fails on a zero size or a failed
allocation (`alloc` models whether `buffer_.resize` succeeds). -/
def SoxSink.setup_buffer_ (s : SoxSink) (alloc : Bool) : SoxSink × Bool :=
  if s.sample_spec_.ns_2_samples_overall s.frame_length_ = 0 then
    ({ s with buffer_size_ := s.sample_spec_.ns_2_samples_overall s.frame_length_ }, false)
  else if alloc = false then
    ({ s with buffer_size_ := s.sample_spec_.ns_2_samples_overall s.frame_length_ }, false)
  else
    ({ s with
        buffer_size_ := s.sample_spec_.ns_2_samples_overall s.frame_length_
        buffer_len := s.sample_spec_.ns_2_samples_overall s.frame_length_ }, true)

/-- SoxSink::open.  Panics (`Except.error`) on an invalid sink and on a
second call (nonempty buffer or non-null output handle); otherwise runs
`open_` then `setup_buffer_` and reports their combined success. -/
def SoxSink.open' (s : SoxSink) (resp : Option SoxFormat) (alloc : Bool) :
    Except String (SoxSink × Bool) :=
  if s.valid_ = false then Except.error "sox sink panic: invalid sink"
  else if s.buffer_len ≠ 0 ∨ s.output_.isSome then
    Except.error "sox sink panic: cannot call open more than once"
  else if (s.open_ resp).2 = false then Except.ok ((s.open_ resp).1, false)
  else if (((s.open_ resp).1).setup_buffer_ alloc).2 = false then
    Except.ok ((((s.open_ resp).1).setup_buffer_ alloc).1, false)
  else Except.ok ((((s.open_ resp).1).setup_buffer_ alloc).1, true)

/-- SoxSink::state.  The source returns `DeviceState_Active`
unconditionally: no validity check, no panic, no dependence on the sink. -/
def SoxSink.state (_ : SoxSink) : Except String DeviceState :=
  Except.ok DeviceState.DeviceState_Active

/-- SoxSink::sample_spec.  Panics on an invalid or not-yet-opened sink,
otherwise returns the (negotiated) sample spec. -/
def SoxSink.sample_spec (s : SoxSink) : Except String SampleSpec :=
  if s.valid_ = false then Except.error "sox sink panic: invalid sink"
  else if s.output_ = none then Except.error "sox sink panic: not opened"
  else Except.ok s.sample_spec_

/-- SoxSink::latency.  Panics on an invalid or not-yet-opened sink,
otherwise returns 0. -/
def SoxSink.latency (s : SoxSink) : Except String Nat :=
  if s.valid_ = false then Except.error "sox sink panic: invalid sink"
  else if s.output_ = none then Except.error "sox sink panic: not opened"
  else Except.ok 0

/-- SoxSink::has_latency.  Panics on an invalid or not-yet-opened sink,
otherwise returns false. -/
def SoxSink.has_latency (s : SoxSink) : Except String Bool :=
  if s.valid_ = false then Except.error "sox sink panic: invalid sink"
  else if s.output_ = none then Except.error "sox sink panic: not opened"
  else Except.ok false

/-- SoxSink::has_clock.  Panics on an invalid or not-yet-opened sink,
otherwise reports whether the output is a device rather than a file. -/
def SoxSink.has_clock (s : SoxSink) : Except String Bool :=
  if s.valid_ = false then Except.error "sox sink panic: invalid sink"
  else if s.output_ = none then Except.error "sox sink panic: not opened"
  else Except.ok (!s.is_file_)

/-- The log of backend write calls: `idx` is the number of `sox_write`
calls made so far, `delivered` the sample count handed to each call. -/
structure BackendSt where
  idx : Nat
  delivered : List Nat
deriving DecidableEq, Repr

/-- SoxSink::write_.  A flush of `n` samples: for `n > 0` it invokes
`sox_write` (consuming the next oracle answer and logging `n`), returning
`StatusErrFile` or `StatusErrDevice` on a short write according to
`is_file_`; for `n = 0` it does nothing and returns `StatusOK`. -/
def SoxSink.write_ (s : SoxSink) (ok : Nat → Bool) (st : BackendSt) (n : Nat) :
    BackendSt × StatusCode :=
  if 0 < n then
    (⟨st.idx + 1, st.delivered ++ [n]⟩,
      if ok st.idx then StatusCode.StatusOK
      else if s.is_file_ then StatusCode.StatusErrFile else StatusCode.StatusErrDevice)
  else (st, StatusCode.StatusOK)

/-- The nested loops of SoxSink::write, one `while` iteration per step:
state is (remaining frame samples, buffer position); the result is the
list of full-buffer flush sizes performed inside the loop together with
the final buffer position.  The recursion is bounded by explicit fuel;
`none` models the non-terminating execution the source exhibits when
`buffer_size_` is zero. -/
def writeIter (B : Nat) : Nat → Nat → Nat → Option (List Nat × Nat)
  | 0, _, _ => none
  | fuel + 1, fs, pos =>
    if fs = 0 then some ([], pos)
    else if pos + min (B - pos) fs = B then
      match writeIter B fuel (fs - min (B - pos) fs) 0 with
      | none => none
      | some (l, p) => some (B :: l, p)
    else writeIter B fuel (fs - min (B - pos) fs) (pos + min (B - pos) fs)

/-- SoxSink::write.  Panics on an invalid sink; otherwise runs the buffer
loop on the frame's `frame` raw samples (each full buffer is flushed via
`write_` with its status discarded, exactly as in the source) and returns
the status of the one final `write_` call on the leftover buffer
position.  The inner `some` is the terminating execution. -/
def SoxSink.write (s : SoxSink) (ok : Nat → Bool) (st : BackendSt) (frame : Nat) :
    Except String (Option (BackendSt × StatusCode)) :=
  if s.valid_ = false then Except.error "sox sink panic: invalid sink"
  else
    (writeIter s.buffer_size_ (frame + 1) frame 0).elim
      (Except.ok none)
      (fun fp =>
        Except.ok (some (s.write_ ok (fp.1.foldl (fun b n => (s.write_ ok b n).1) st) fp.2)))

/-- A sequence of `write(frame)` calls, collecting the statuses. -/
def SoxSink.writeFrames (s : SoxSink) (ok : Nat → Bool) :
    BackendSt → List Nat → Except String (Option (BackendSt × List StatusCode))
  | st, [] => Except.ok (some (st, []))
  | st, f :: fs =>
    match s.write ok st f with
    | Except.error e => Except.error e
    | Except.ok none => Except.ok none
    | Except.ok (some (st1, code)) =>
      match s.writeFrames ok st1 fs with
      | Except.error e => Except.error e
      | Except.ok none => Except.ok none
      | Except.ok (some (st2, codes)) => Except.ok (some (st2, code :: codes))

/-- The block decomposition of one write call: `fs / B` full blocks of `B`
samples followed by the leftover partial block, if any. -/
def flushesOf (B fs : Nat) : List Nat :=
  List.replicate (fs / B) B ++ (if fs % B ≠ 0 then [fs % B] else [])

/-- Stream states of the pulseaudio device bridge, as listed by the spec
(`Stream: ... States: Unopened, Opening, Ready, Corked, Closing, Failed`). -/
inductive StreamState where
  | Unopened
  | Opening
  | Ready
  | Corked
  | Closing
  | Failed
deriving DecidableEq, Repr

/-- Modelled from the spec: `PulseaudioDevice::state` — the sources hold
only the header `pulseaudio_device.h`, not the implementation.  The spec:
"state() reports the bridge's externally visible state (Active while
Stream is Ready/Corked, else Closed)". -/
def PulseaudioDevice.state (st : StreamState) : DeviceState :=
  match st with
  | StreamState.Ready => DeviceState.DeviceState_Active
  | StreamState.Corked => DeviceState.DeviceState_Active
  | _ => DeviceState.DeviceState_Closed

/-- A sink as left by the constructor followed by `open` against a given
backend response with a successful allocation; used to build the concrete
scenarios.  On a panic the initial state is returned (unused in practice). -/
def sinkAfterOpen (cfg : Config) (t : DriverType) (resp : Option SoxFormat) : SoxSink :=
  match SoxSink.open' (SoxSink.construct cfg t) resp true with
  | Except.ok (s, _) => s
  | Except.error _ => SoxSink.init

example :
    (sinkAfterOpen
      { latency := 0, frame_length := 10000000,
        sample_spec := { rate := 44100, channels := 2, format := PcmFormat.Sample_RawFormat } }
      DriverType.DriverType_Device
      (some { signal_rate := 44100, signal_channels := 2, is_device := true })).buffer_size_
    = 882 := by decide

/-- With no samples left, the loop exits at once, keeping the position. -/
lemma writeIter_fs_zero (B : Nat) (fuel pos : Nat) (h : 0 < fuel) :
    writeIter B fuel 0 pos = some ([], pos) := by
  cases fuel with
  | zero => exact absurd h (lt_irrefl 0)
  | succ f => simp [writeIter]

/-- Characterization of the write loop started on an empty buffer: for a
positive buffer size and enough fuel it terminates, flushing `fs / B` full
blocks inside the loop and leaving `fs % B` samples in the buffer. -/
lemma writeIter_spec (B : Nat) (hB : 0 < B) :
    ∀ fuel fs, fs < fuel →
      writeIter B fuel fs 0 = some (List.replicate (fs / B) B, fs % B) := by
  intro fuel
  induction fuel with
  | zero => intro fs h; omega
  | succ f ih =>
    intro fs hfs
    by_cases h0 : fs = 0
    · subst h0
      simp [writeIter]
    · have h1 : 0 < fs := Nat.pos_of_ne_zero h0
      have hf1 : 0 < f := by omega
      simp only [writeIter, if_neg h0, Nat.sub_zero, Nat.zero_add]
      by_cases hBfs : B ≤ fs
      · rw [Nat.min_eq_left hBfs, if_pos rfl, ih (fs - B) (by omega)]
        have hdiv : fs / B = (fs - B) / B + 1 := Nat.div_eq_sub_div hB hBfs
        have hmod : fs % B = (fs - B) % B := Nat.mod_eq_sub_mod hBfs
        rw [hdiv, hmod, List.replicate_succ]
      · have hlt : fs < B := Nat.lt_of_not_le hBfs
        rw [Nat.min_eq_right (Nat.le_of_lt hlt), if_neg (by omega), Nat.sub_self,
          writeIter_fs_zero B f fs hf1, Nat.div_eq_of_lt hlt, Nat.mod_eq_of_lt hlt]
        simp

/-- Folding the full-block flushes over the backend log: each flush makes
one backend call of exactly `buffer_size_` samples. -/
lemma foldl_write_full (s : SoxSink) (ok : Nat → Bool) (hB : 0 < s.buffer_size_) :
    ∀ (k : Nat) (st : BackendSt),
      (List.replicate k s.buffer_size_).foldl (fun b n => (s.write_ ok b n).1) st
        = ⟨st.idx + k, st.delivered ++ List.replicate k s.buffer_size_⟩ := by
  intro k
  induction k with
  | zero => intro st; simp
  | succ k ih =>
    intro st
    rw [List.replicate_succ, List.foldl_cons]
    have hw : (s.write_ ok st s.buffer_size_).1
        = ⟨st.idx + 1, st.delivered ++ [s.buffer_size_]⟩ := by
      simp [SoxSink.write_, hB]
    rw [hw, ih]
    have hidx : st.idx + 1 + k = st.idx + (k + 1) := by omega
    rw [hidx, List.append_assoc, List.singleton_append, ← List.replicate_succ]

/-- Full characterization of one `write(frame)` call on a valid sink with
a positive buffer size: the backend receives the full blocks followed by
the leftover partial block, and the returned status is the status of the
final flush alone (`StatusOK` when the frame fills the buffer exactly,
since the final flush is then empty). -/
lemma sox_write_eq (s : SoxSink) (ok : Nat → Bool) (st : BackendSt) (frame : Nat)
    (hv : s.valid_ = true) (hB : 0 < s.buffer_size_) :
    s.write ok st frame = Except.ok (some
      (⟨st.idx + frame / s.buffer_size_ + (if frame % s.buffer_size_ ≠ 0 then 1 else 0),
        st.delivered ++ flushesOf s.buffer_size_ frame⟩,
       if frame % s.buffer_size_ = 0 then StatusCode.StatusOK
       else if ok (st.idx + frame / s.buffer_size_) then StatusCode.StatusOK
       else if s.is_file_ then StatusCode.StatusErrFile
       else StatusCode.StatusErrDevice)) := by
  have hiter := writeIter_spec s.buffer_size_ hB (frame + 1) frame (Nat.lt_succ_self frame)
  unfold SoxSink.write
  rw [hv, if_neg (by simp), hiter, Option.elim_some,
    foldl_write_full s ok hB (frame / s.buffer_size_) st]
  by_cases hr : frame % s.buffer_size_ = 0
  · simp [SoxSink.write_, flushesOf, hr]
  · have hpos : 0 < frame % s.buffer_size_ := Nat.pos_of_ne_zero hr
    simp [SoxSink.write_, flushesOf, hr, hpos, List.append_assoc]

/-- The blocks of one write call carry exactly the frame's samples. -/
lemma flushesOf_sum (B fs : Nat) : (flushesOf B fs).sum = fs := by
  by_cases hr : fs % B = 0
  · simp [flushesOf, hr, List.sum_replicate, smul_eq_mul]
    exact Nat.div_mul_cancel (Nat.dvd_of_mod_eq_zero hr)
  · simp [flushesOf, hr, List.sum_replicate, smul_eq_mul]
    rw [mul_comm]
    exact Nat.div_add_mod fs B

/-- Decomposition of a successful `open`: the sink was valid, `open_` and
`setup_buffer_` both succeeded, and the final state is their composition. -/
lemma sox_open_ok_true (s : SoxSink) (resp : Option SoxFormat) (alloc : Bool)
    (s1 : SoxSink) (h : s.open' resp alloc = Except.ok (s1, true)) :
    s.valid_ = true
    ∧ (s.open_ resp).2 = true
    ∧ ((s.open_ resp).1.setup_buffer_ alloc).2 = true
    ∧ s1 = ((s.open_ resp).1.setup_buffer_ alloc).1 := by
  unfold SoxSink.open' at h
  by_cases h1 : s.valid_ = false
  · simp [h1] at h
  · by_cases h2 : s.buffer_len ≠ 0 ∨ s.output_.isSome
    · simp [h1, h2] at h
    · by_cases h3 : (s.open_ resp).2 = false
      · simp [h1, h2, h3] at h
      · by_cases h4 : ((s.open_ resp).1.setup_buffer_ alloc).2 = false
        · simp [h1, h2, h3, h4] at h
        · simp only [if_neg h1, if_neg h2, if_neg h3, if_neg h4, Except.ok.injEq,
            Prod.mk.injEq] at h
          refine ⟨?_, ?_, ?_, h.1.symm⟩
          · revert h1; cases s.valid_ <;> simp
          · revert h3; cases (s.open_ resp).2 <;> simp
          · revert h4; cases ((s.open_ resp).1.setup_buffer_ alloc).2 <;> simp

/-- When `open_` succeeds on a non-null handle, both negotiation checks
passed and the resulting state is the fully updated one. -/
lemma sox_open_aux_true (s : SoxSink) (fmt : SoxFormat)
    (h : (s.open_ (some fmt)).2 = true) :
    s.open_ (some fmt)
      = ({ s with
            output_ := some fmt
            is_file_ := !fmt.is_device
            sample_spec_ :=
              { rate := fmt.signal_rate
                channels := fmt.signal_channels
                format := s.sample_spec_.format } }, true) := by
  unfold SoxSink.open_ at h ⊢
  by_cases c1 : s.out_signal_rate ≠ 0 ∧ s.out_signal_rate ≠ fmt.signal_rate
  · simp [c1] at h
  · by_cases c2 : s.out_signal_channels ≠ 0 ∧ s.out_signal_channels ≠ fmt.signal_channels
    · simp [c1, c2] at h
    · simp [c1, c2]

/-- When `setup_buffer_` succeeds, the derived buffer size was nonzero and
both `buffer_size_` and the allocated buffer length are set to it. -/
lemma sox_setup_buffer_true (s : SoxSink) (alloc : Bool)
    (h : (s.setup_buffer_ alloc).2 = true) :
    (s.setup_buffer_ alloc).1
      = { s with
            buffer_size_ := s.sample_spec_.ns_2_samples_overall s.frame_length_
            buffer_len := s.sample_spec_.ns_2_samples_overall s.frame_length_ }
    ∧ s.sample_spec_.ns_2_samples_overall s.frame_length_ ≠ 0 := by
  unfold SoxSink.setup_buffer_ at h ⊢
  by_cases c1 : s.sample_spec_.ns_2_samples_overall s.frame_length_ = 0
  · simp [c1] at h
  · by_cases c2 : alloc = false
    · simp [c1, c2] at h
    · simp [c1, c2]

/-- `open_` never touches the validity flag or the frame length. -/
lemma sox_openaux_fields (s : SoxSink) (resp : Option SoxFormat) :
    ((s.open_ resp).1).valid_ = s.valid_
    ∧ ((s.open_ resp).1).frame_length_ = s.frame_length_ := by
  unfold SoxSink.open_
  cases resp with
  | none => simp
  | some fmt =>
    by_cases c1 : s.out_signal_rate ≠ 0 ∧ s.out_signal_rate ≠ fmt.signal_rate
    · simp [c1]
    · by_cases c2 : s.out_signal_channels ≠ 0 ∧ s.out_signal_channels ≠ fmt.signal_channels
      · simp [c1, c2]
      · simp [c1, c2]

/-- Unfolding one successful step of a write sequence. -/
lemma writeFrames_cons_ok (s : SoxSink) (ok : Nat → Bool) (st st1 : BackendSt)
    (f : Nat) (fs : List Nat) (code : StatusCode)
    (h : s.write ok st f = Except.ok (some (st1, code))) :
    s.writeFrames ok st (f :: fs) =
      match s.writeFrames ok st1 fs with
      | Except.error e => Except.error e
      | Except.ok none => Except.ok none
      | Except.ok (some (st2, codes)) => Except.ok (some (st2, code :: codes)) := by
  conv_lhs => unfold SoxSink.writeFrames
  rw [h]

/-- C1: after a successful open (valid sink, positive buffer size), any
sequence of write(frame) calls whose frames hold N samples in total hands
the backend exactly N samples, with `StatusOK` returned from every call,
whatever the relation between the frame sizes and the buffer size —
provided every backend write accepts its samples. -/
theorem sox_write_total_samples_delivered (s : SoxSink) (ok : Nat → Bool)
    (st : BackendSt) (frames : List Nat)
    (hv : s.valid_ = true) (hB : 0 < s.buffer_size_) (hok : ∀ i, ok i = true) :
    ∃ st2 codes, s.writeFrames ok st frames = Except.ok (some (st2, codes))
      ∧ st2.delivered.sum = st.delivered.sum + frames.sum
      ∧ ∀ c ∈ codes, c = StatusCode.StatusOK := by
  induction frames generalizing st with
  | nil => exact ⟨st, [], rfl, by simp, by simp⟩
  | cons f fs ih =>
    have hw := sox_write_eq s ok st f hv hB
    rw [show (if f % s.buffer_size_ = 0 then StatusCode.StatusOK
        else if ok (st.idx + f / s.buffer_size_) then StatusCode.StatusOK
        else if s.is_file_ then StatusCode.StatusErrFile
        else StatusCode.StatusErrDevice) = StatusCode.StatusOK by
      by_cases hr : f % s.buffer_size_ = 0 <;> simp [hr, hok]] at hw
    obtain ⟨st2, codes, hrec, hsum, hcodes⟩ :=
      ih ⟨st.idx + f / s.buffer_size_ + (if f % s.buffer_size_ ≠ 0 then 1 else 0),
          st.delivered ++ flushesOf s.buffer_size_ f⟩
    refine ⟨st2, StatusCode.StatusOK :: codes, ?_, ?_, ?_⟩
    · rw [writeFrames_cons_ok s ok st _ f fs _ hw, hrec]
    · rw [hsum]
      simp only [List.sum_append, List.sum_cons, flushesOf_sum]
      omega
    · intro c hc
      rcases List.mem_cons.mp hc with h | h
      · exact h
      · exact hcodes c h

/-- C1 witness: the spec scenario — sink opened at rate 44100, 2 channels,
10 ms frame length (buffer size 882); 10 frames of 441 samples each
deliver a cumulative 4410 samples to the backend, every call returning
`StatusOK`. -/
theorem sox_write_total_samples_delivered_witness :
    (List.replicate 10 441).sum = 4410
    ∧ ∃ st2 codes,
        (sinkAfterOpen
            { latency := 0, frame_length := 10000000,
              sample_spec := { rate := 44100, channels := 2, format := PcmFormat.Sample_RawFormat } }
            DriverType.DriverType_Device
            (some { signal_rate := 44100, signal_channels := 2, is_device := true })).writeFrames
          (fun _ => true) ⟨0, []⟩ (List.replicate 10 441)
          = Except.ok (some (st2, codes))
        ∧ st2.delivered.sum = (⟨0, []⟩ : BackendSt).delivered.sum + (List.replicate 10 441).sum
        ∧ ∀ c ∈ codes, c = StatusCode.StatusOK :=
  ⟨by decide,
    sox_write_total_samples_delivered _ _ _ _ rfl (by decide) (fun _ => rfl)⟩

/-- C2 counterexample: on a device sink with buffer size 2, writing one
frame of exactly 2 samples makes the sink perform one backend write (the
full-buffer flush, logged as `delivered = [2]`) whose oracle answer is a
failure, yet `write` returns `StatusOK` — the intermediate flush status is
discarded by the source, contradicting the claim that any failing flush
within the call is reflected in the returned status. -/
theorem sox_write_intermediate_failure_status_ok :
    (sinkAfterOpen
        { latency := 0, frame_length := 1000000,
          sample_spec := { rate := 1000, channels := 2, format := PcmFormat.Sample_RawFormat } }
        DriverType.DriverType_Device
        (some { signal_rate := 1000, signal_channels := 2, is_device := true })).write
      (fun _ => false) ⟨0, []⟩ 2
      = Except.ok (some (⟨1, [2]⟩, StatusCode.StatusOK))
    ∧ (fun _ => false : Nat → Bool) 0 = false
    ∧ StatusCode.StatusOK ≠ StatusCode.StatusErrDevice
    ∧ StatusCode.StatusOK ≠ StatusCode.StatusErrFile :=
  ⟨rfl, rfl, by decide, by decide⟩

/-- C2 amended: the status returned by `write(frame)` is the status of the
final flush alone — `StatusOK` when the frame is a multiple of the buffer
size (the final flush is then empty) and otherwise the verdict of the one
backend write for the leftover partial block, mapped to `StatusErrFile`
for files and `StatusErrDevice` for devices; failures of the intermediate
full-buffer flushes are not reflected. -/
theorem sox_write_status_is_final_flush_status (s : SoxSink) (ok : Nat → Bool)
    (st : BackendSt) (frame : Nat)
    (hv : s.valid_ = true) (hB : 0 < s.buffer_size_) :
    ∃ st2, s.write ok st frame = Except.ok (some (st2,
      if frame % s.buffer_size_ = 0 then StatusCode.StatusOK
      else if ok (st.idx + frame / s.buffer_size_) then StatusCode.StatusOK
      else if s.is_file_ then StatusCode.StatusErrFile
      else StatusCode.StatusErrDevice)) :=
  ⟨_, sox_write_eq s ok st frame hv hB⟩

/-- C2 amended witness: same device sink (buffer size 2), one frame of 3
samples against an always-failing backend: the final partial flush fails
and the call returns `StatusErrDevice`. -/
theorem sox_write_status_is_final_flush_status_witness :
    ∃ st2, (sinkAfterOpen
        { latency := 0, frame_length := 1000000,
          sample_spec := { rate := 1000, channels := 2, format := PcmFormat.Sample_RawFormat } }
        DriverType.DriverType_Device
        (some { signal_rate := 1000, signal_channels := 2, is_device := true })).write
      (fun _ => false) ⟨0, []⟩ 3
      = Except.ok (some (st2, StatusCode.StatusErrDevice)) :=
  sox_write_status_is_final_flush_status _ _ _ _ rfl (by decide)

/-- C4: on a valid sink with positive buffer size, one `write(frame)` call
hands the backend a sequence of blocks: some number `k` of full blocks of
exactly `buffer_size_` samples, followed by at most one final partial
block `r < buffer_size_`, with `k * buffer_size_ + r` covering the whole
frame; every backend write receives at least one and at most
`buffer_size_` samples. -/
theorem sox_write_flush_block_structure (s : SoxSink) (ok : Nat → Bool)
    (st : BackendSt) (frame : Nat)
    (hv : s.valid_ = true) (hB : 0 < s.buffer_size_) :
    ∃ st2 code, s.write ok st frame = Except.ok (some (st2, code))
      ∧ ∃ k r, r < s.buffer_size_
        ∧ st2.delivered
            = st.delivered ++ (List.replicate k s.buffer_size_ ++ (if r ≠ 0 then [r] else []))
        ∧ k * s.buffer_size_ + r = frame
        ∧ ∀ n ∈ List.replicate k s.buffer_size_ ++ (if r ≠ 0 then [r] else []),
            0 < n ∧ n ≤ s.buffer_size_ := by
  refine ⟨_, _, sox_write_eq s ok st frame hv hB,
    frame / s.buffer_size_, frame % s.buffer_size_, Nat.mod_lt frame hB, rfl, ?_, ?_⟩
  · rw [mul_comm]
    exact Nat.div_add_mod frame s.buffer_size_
  · intro n hn
    rcases List.mem_append.mp hn with h | h
    · rw [List.eq_of_mem_replicate h]
      exact ⟨hB, le_refl _⟩
    · by_cases hr : frame % s.buffer_size_ ≠ 0
      · rw [if_pos hr] at h
        rcases List.mem_singleton.mp h with rfl
        exact ⟨Nat.pos_of_ne_zero hr, Nat.le_of_lt (Nat.mod_lt frame hB)⟩
      · rw [if_neg hr] at h
        simp at h

/-- C4 witness: buffer size 2, frame of 5 samples: two full blocks of 2
and a final partial block of 1. -/
theorem sox_write_flush_block_structure_witness :
    ∃ st2 code, (sinkAfterOpen
        { latency := 0, frame_length := 1000000,
          sample_spec := { rate := 1000, channels := 2, format := PcmFormat.Sample_RawFormat } }
        DriverType.DriverType_Device
        (some { signal_rate := 1000, signal_channels := 2, is_device := true })).write
      (fun _ => true) ⟨0, []⟩ 5
      = Except.ok (some (st2, code))
      ∧ ∃ k r, r < 2
        ∧ st2.delivered = [] ++ (List.replicate k 2 ++ (if r ≠ 0 then [r] else []))
        ∧ k * 2 + r = 5
        ∧ ∀ n ∈ List.replicate k 2 ++ (if r ≠ 0 then [r] else []), 0 < n ∧ n ≤ 2 :=
  sox_write_flush_block_structure _ _ _ _ rfl (by decide)

/-- C3: on an openable sink (valid, not yet opened), when the caller
requested a nonzero rate or nonzero channel count in `out_signal_` and the
backend reports a different value, `open` returns false — a hard
negotiation failure, never a silent coercion to the device value. -/
theorem sox_open_rejects_mismatched_negotiation (s : SoxSink) (fmt : SoxFormat)
    (alloc : Bool)
    (hv : s.valid_ = true) (hb : s.buffer_len = 0) (ho : s.output_ = none)
    (hmis : (s.out_signal_rate ≠ 0 ∧ s.out_signal_rate ≠ fmt.signal_rate)
          ∨ (s.out_signal_channels ≠ 0 ∧ s.out_signal_channels ≠ fmt.signal_channels)) :
    ∃ s1, s.open' (some fmt) alloc = Except.ok (s1, false) := by
  have h2 : (s.open_ (some fmt)).2 = false := by
    unfold SoxSink.open_
    rcases hmis with h | h
    · simp [h]
    · by_cases c1 : s.out_signal_rate ≠ 0 ∧ s.out_signal_rate ≠ fmt.signal_rate
      · simp [c1]
      · simp [c1, h]
  refine ⟨(s.open_ (some fmt)).1, ?_⟩
  unfold SoxSink.open'
  simp [hv, hb, ho, h2]

/-- C3 witness: the spec scenario — requested rate 44100, device reports
48000: `open` returns false. -/
theorem sox_open_rejects_mismatched_negotiation_witness :
    ∃ s1, (SoxSink.construct
        { latency := 0, frame_length := 10000000,
          sample_spec := { rate := 44100, channels := 2, format := PcmFormat.Sample_RawFormat } }
        DriverType.DriverType_Device).open'
      (some { signal_rate := 48000, signal_channels := 2, is_device := true }) true
      = Except.ok (s1, false) :=
  sox_open_rejects_mismatched_negotiation _ _ _ rfl rfl rfl
    (Or.inl ⟨by decide, by decide⟩)

/-- C5: after a successful open against a backend that reports a nonzero
rate and channel count, `sample_spec()` returns (without panicking) a spec
whose rate and channel count are exactly the backend-reported values, both
nonzero. -/
theorem sox_sample_spec_reports_negotiated (s : SoxSink) (fmt : SoxFormat)
    (alloc : Bool) (s1 : SoxSink)
    (h : s.open' (some fmt) alloc = Except.ok (s1, true))
    (hr : fmt.signal_rate ≠ 0) (hc : fmt.signal_channels ≠ 0) :
    ∃ spec, s1.sample_spec = Except.ok spec
      ∧ spec.rate = fmt.signal_rate ∧ spec.channels = fmt.signal_channels
      ∧ spec.rate ≠ 0 ∧ spec.channels ≠ 0 := by
  obtain ⟨hv, h2, h4, hs1⟩ := sox_open_ok_true s (some fmt) alloc s1 h
  have hopen := sox_open_aux_true s fmt h2
  rw [hopen] at h4 hs1
  obtain ⟨hsetup, _⟩ := sox_setup_buffer_true _ alloc h4
  rw [hsetup] at hs1
  refine ⟨s1.sample_spec_, ?_, ?_, ?_, ?_, ?_⟩
  · unfold SoxSink.sample_spec
    rw [hs1]
    simp [hv]
  · rw [hs1]
  · rw [hs1]
  · rw [hs1]; exact hr
  · rw [hs1]; exact hc

/-- C5 witness: a zero-rate request against a device reporting 48000 Hz and
2 channels: `sample_spec()` after open reports 48000/2, both nonzero. -/
theorem sox_sample_spec_reports_negotiated_witness :
    ∃ spec, (sinkAfterOpen
        { latency := 0, frame_length := 10000000,
          sample_spec := { rate := 0, channels := 0, format := PcmFormat.Sample_RawFormat } }
        DriverType.DriverType_Device
        (some { signal_rate := 48000, signal_channels := 2, is_device := true })).sample_spec
      = Except.ok spec
      ∧ spec.rate = 48000 ∧ spec.channels = 2
      ∧ spec.rate ≠ 0 ∧ spec.channels ≠ 0 :=
  sox_sample_spec_reports_negotiated
    (SoxSink.construct
      { latency := 0, frame_length := 10000000,
        sample_spec := { rate := 0, channels := 0, format := PcmFormat.Sample_RawFormat } }
      DriverType.DriverType_Device)
    { signal_rate := 48000, signal_channels := 2, is_device := true } true _
    rfl (by decide) (by decide)

/-- C10: on an openable sink, when the configured frame length converts to
zero samples at the sample spec left by negotiation, `open` returns false
without panicking (an `Except.ok` carrying `false`, never an
`Except.error`) — whatever the backend response and allocation outcome. -/
theorem sox_open_fails_on_zero_buffer (s : SoxSink) (resp : Option SoxFormat)
    (alloc : Bool)
    (hv : s.valid_ = true) (hb : s.buffer_len = 0) (ho : s.output_ = none)
    (hz : ((s.open_ resp).1).sample_spec_.ns_2_samples_overall ((s.open_ resp).1).frame_length_ = 0) :
    ∃ s1, s.open' resp alloc = Except.ok (s1, false) := by
  by_cases h3 : (s.open_ resp).2 = false
  · refine ⟨(s.open_ resp).1, ?_⟩
    unfold SoxSink.open'
    simp [hv, hb, ho, h3]
  · have h4 : ((s.open_ resp).1.setup_buffer_ alloc).2 = false := by
      unfold SoxSink.setup_buffer_
      simp [hz]
    refine ⟨((s.open_ resp).1.setup_buffer_ alloc).1, ?_⟩
    unfold SoxSink.open'
    simp [hv, hb, ho, h3, h4]

/-- C10 witness: frame length 1000 ns (nonzero, so construction succeeds)
at negotiated rate 44100 and 2 channels converts to zero samples; `open`
returns false and does not panic. -/
theorem sox_open_fails_on_zero_buffer_witness :
    ∃ s1, (SoxSink.construct
        { latency := 0, frame_length := 1000,
          sample_spec := { rate := 0, channels := 0, format := PcmFormat.Sample_RawFormat } }
        DriverType.DriverType_Device).open'
      (some { signal_rate := 44100, signal_channels := 2, is_device := true }) true
      = Except.ok (s1, false) :=
  sox_open_fails_on_zero_buffer _ _ _ rfl rfl rfl (by decide)

/-- C6 counterexample: a device-type configuration requesting rate 0 and
channel count 0 does not pass zero channels to the backend: the
constructor coerces the channel count to the hard-coded stereo default 2
before opening, and a file-type sink likewise replaces a zero rate with
the hard-coded 44100 — contradicting the claim that a zero value is always
passed to the backend as zero. -/
theorem sox_zero_channels_coerced_to_stereo :
    (SoxSink.construct
        { latency := 0, frame_length := 10000000,
          sample_spec := { rate := 0, channels := 0, format := PcmFormat.Sample_RawFormat } }
        DriverType.DriverType_Device).out_signal_channels = 2
    ∧ (2 : Nat) ≠ 0
    ∧ (SoxSink.construct
        { latency := 0, frame_length := 10000000,
          sample_spec := { rate := 0, channels := 0, format := PcmFormat.Sample_RawFormat } }
        DriverType.DriverType_File).out_signal_rate = 44100
    ∧ (44100 : Nat) ≠ 0 := by
  refine ⟨rfl, by decide, rfl, by decide⟩

/-- C6 amended: only the sample rate of a device-type sink is passed
through to the backend as zero when the caller leaves it zero; a zero
channel count is replaced by the hard-coded stereo default (2 channels)
for both driver types, and a zero rate on a file-type sink is replaced by
the hard-coded 44100 before opening. -/
theorem sox_defaults_applied_before_open (cfg : Config) (t : DriverType)
    (hl : cfg.latency = 0)
    (hf : cfg.sample_spec.format = PcmFormat.Sample_RawFormat
        ∨ cfg.sample_spec.format = PcmFormat.Sample_InvalidFormat)
    (hfl : cfg.frame_length ≠ 0) :
    (SoxSink.construct cfg DriverType.DriverType_Device).out_signal_rate
        = cfg.sample_spec.rate
    ∧ (SoxSink.construct cfg DriverType.DriverType_File).out_signal_rate
        = (if cfg.sample_spec.rate = 0 then 44100 else cfg.sample_spec.rate)
    ∧ (SoxSink.construct cfg t).out_signal_channels
        = (if cfg.sample_spec.channels = 0 then 2 else cfg.sample_spec.channels) := by
  rcases hf with h | h <;>
    refine ⟨?_, ?_, ?_⟩ <;>
      simp [SoxSink.construct, SampleSpec.use_defaults, SampleSpec.is_raw, hl, hfl, h] <;>
      omega

/-- C6 amended witness: rate 0 and channels 0 on a device-type sink give
`out_signal_` rate 0 (device default accepted) but channels 2. -/
theorem sox_defaults_applied_before_open_witness :
    (SoxSink.construct
        { latency := 0, frame_length := 10000000,
          sample_spec := { rate := 0, channels := 0, format := PcmFormat.Sample_RawFormat } }
        DriverType.DriverType_Device).out_signal_rate = 0
    ∧ (SoxSink.construct
        { latency := 0, frame_length := 10000000,
          sample_spec := { rate := 0, channels := 0, format := PcmFormat.Sample_RawFormat } }
        DriverType.DriverType_File).out_signal_rate = 44100
    ∧ (SoxSink.construct
        { latency := 0, frame_length := 10000000,
          sample_spec := { rate := 0, channels := 0, format := PcmFormat.Sample_RawFormat } }
        DriverType.DriverType_Device).out_signal_channels = 2 :=
  sox_defaults_applied_before_open
    { latency := 0, frame_length := 10000000,
      sample_spec := { rate := 0, channels := 0, format := PcmFormat.Sample_RawFormat } }
    DriverType.DriverType_Device rfl (Or.inl rfl) (by decide)

/-- C7 counterexample, refuting both halves of the claim on concrete
inputs.  State half: querying `state()` on a constructed but never opened
sink is not a fatal precondition violation — the source performs no check
at all and returns `DeviceState_Active` normally.  Open-twice half: after
a first `open` that failed with a NULL backend handle (`sox_open_write`
returned NULL), the handle stays null and the buffer empty, so a second
`open` on the same instance passes the panic guard and proceeds normally
(here it even succeeds, returning `Except.ok` with result `true`) — open
is not "at most once per instance" enforced by panic. -/
theorem sox_state_before_open_no_panic :
    (SoxSink.construct
        { latency := 0, frame_length := 5000000,
          sample_spec := { rate := 44100, channels := 2, format := PcmFormat.Sample_RawFormat } }
        DriverType.DriverType_Device).output_ = none
    ∧ SoxSink.state (SoxSink.construct
        { latency := 0, frame_length := 5000000,
          sample_spec := { rate := 44100, channels := 2, format := PcmFormat.Sample_RawFormat } }
        DriverType.DriverType_Device) = Except.ok DeviceState.DeviceState_Active
    ∧ (SoxSink.construct
        { latency := 0, frame_length := 5000000,
          sample_spec := { rate := 44100, channels := 2, format := PcmFormat.Sample_RawFormat } }
        DriverType.DriverType_Device).open' none true
      = Except.ok (sinkAfterOpen
          { latency := 0, frame_length := 5000000,
            sample_spec := { rate := 44100, channels := 2, format := PcmFormat.Sample_RawFormat } }
          DriverType.DriverType_Device none, false)
    ∧ Except.map Prod.snd ((sinkAfterOpen
        { latency := 0, frame_length := 5000000,
          sample_spec := { rate := 44100, channels := 2, format := PcmFormat.Sample_RawFormat } }
        DriverType.DriverType_Device none).open'
        (some { signal_rate := 44100, signal_channels := 2, is_device := true }) true)
      = Except.ok true :=
  ⟨rfl, rfl, rfl, rfl⟩

/-- C7 amended: calling `open` a second time after a successful open is a
fatal precondition violation (panic), but after an open that failed
leaving the backend handle null and the buffer unallocated, a second
`open` proceeds without panic — open is not at-most-once in general.
Querying `state()` is never a precondition violation: it returns
`DeviceState_Active` on any sink, even one never opened.  The accessors
that do treat use-before-open as a fatal precondition violation are
`sample_spec()`, `latency()`, `has_latency()` and `has_clock()`. -/
theorem sox_open_twice_panics_state_does_not (s : SoxSink) (resp : Option SoxFormat)
    (alloc : Bool) (s1 : SoxSink) (resp2 : Option SoxFormat) (alloc2 : Bool)
    (t u w : SoxSink) (resp3 : Option SoxFormat) (alloc3 : Bool)
    (h : s.open' resp alloc = Except.ok (s1, true))
    (hu1 : u.valid_ = true) (hu2 : u.output_ = none)
    (hw1 : w.valid_ = true) (hw2 : w.buffer_len = 0) (hw3 : w.output_ = none) :
    (∃ msg, s1.open' resp2 alloc2 = Except.error msg)
    ∧ (∃ r, w.open' resp3 alloc3 = Except.ok r)
    ∧ t.state = Except.ok DeviceState.DeviceState_Active
    ∧ (∃ msg, u.sample_spec = Except.error msg)
    ∧ (∃ msg, u.latency = Except.error msg)
    ∧ (∃ msg, u.has_latency = Except.error msg)
    ∧ (∃ msg, u.has_clock = Except.error msg) := by
  obtain ⟨hv, h2, h4, hs1⟩ := sox_open_ok_true s resp alloc s1 h
  obtain ⟨hsetup, hnz⟩ := sox_setup_buffer_true _ alloc h4
  have hval1 : s1.valid_ = true := by
    rw [hs1, hsetup]
    show ((s.open_ resp).1).valid_ = true
    rw [(sox_openaux_fields s resp).1]
    exact hv
  have hbuf : s1.buffer_len ≠ 0 := by
    rw [hs1, hsetup]
    exact hnz
  have hreopen : ∃ r, w.open' resp3 alloc3 = Except.ok r := by
    unfold SoxSink.open'
    rw [if_neg (by simp [hw1]), if_neg (by simp [hw2, hw3])]
    by_cases h3 : (w.open_ resp3).2 = false
    · exact ⟨_, by rw [if_pos h3]⟩
    · by_cases h4w : ((w.open_ resp3).1.setup_buffer_ alloc3).2 = false
      · exact ⟨_, by rw [if_neg h3, if_pos h4w]⟩
      · exact ⟨_, by rw [if_neg h3, if_neg h4w]⟩
  refine ⟨⟨"sox sink panic: cannot call open more than once", ?_⟩, hreopen,
    rfl, ⟨"sox sink panic: not opened", ?_⟩, ⟨"sox sink panic: not opened", ?_⟩,
    ⟨"sox sink panic: not opened", ?_⟩, ⟨"sox sink panic: not opened", ?_⟩⟩
  · unfold SoxSink.open'
    rw [if_neg (by simp [hval1]), if_pos (Or.inl hbuf)]
  · unfold SoxSink.sample_spec
    rw [if_neg (by simp [hu1]), if_pos hu2]
  · unfold SoxSink.latency
    rw [if_neg (by simp [hu1]), if_pos hu2]
  · unfold SoxSink.has_latency
    rw [if_neg (by simp [hu1]), if_pos hu2]
  · unfold SoxSink.has_clock
    rw [if_neg (by simp [hu1]), if_pos hu2]

/-- C7 amended witness: a concrete successful open, after which a second
`open` panics; a valid unopened sink accepts `open` without panic;
`state()` returns Active even on the never-opened initial sink; and
`sample_spec()`, `latency()`, `has_latency()`, `has_clock()` on a valid
never-opened sink all panic. -/
theorem sox_open_twice_panics_state_does_not_witness :
    (∃ msg, (sinkAfterOpen
        { latency := 0, frame_length := 10000000,
          sample_spec := { rate := 44100, channels := 2, format := PcmFormat.Sample_RawFormat } }
        DriverType.DriverType_Device
        (some { signal_rate := 44100, signal_channels := 2, is_device := true })).open'
      (some { signal_rate := 44100, signal_channels := 2, is_device := true }) true
      = Except.error msg)
    ∧ (∃ r, (SoxSink.construct
        { latency := 0, frame_length := 10000000,
          sample_spec := { rate := 44100, channels := 2, format := PcmFormat.Sample_RawFormat } }
        DriverType.DriverType_Device).open' none true = Except.ok r)
    ∧ SoxSink.init.state = Except.ok DeviceState.DeviceState_Active
    ∧ (∃ msg, (SoxSink.construct
        { latency := 0, frame_length := 10000000,
          sample_spec := { rate := 44100, channels := 2, format := PcmFormat.Sample_RawFormat } }
        DriverType.DriverType_Device).sample_spec = Except.error msg)
    ∧ (∃ msg, (SoxSink.construct
        { latency := 0, frame_length := 10000000,
          sample_spec := { rate := 44100, channels := 2, format := PcmFormat.Sample_RawFormat } }
        DriverType.DriverType_Device).latency = Except.error msg)
    ∧ (∃ msg, (SoxSink.construct
        { latency := 0, frame_length := 10000000,
          sample_spec := { rate := 44100, channels := 2, format := PcmFormat.Sample_RawFormat } }
        DriverType.DriverType_Device).has_latency = Except.error msg)
    ∧ (∃ msg, (SoxSink.construct
        { latency := 0, frame_length := 10000000,
          sample_spec := { rate := 44100, channels := 2, format := PcmFormat.Sample_RawFormat } }
        DriverType.DriverType_Device).has_clock = Except.error msg) :=
  sox_open_twice_panics_state_does_not
    (SoxSink.construct
      { latency := 0, frame_length := 10000000,
        sample_spec := { rate := 44100, channels := 2, format := PcmFormat.Sample_RawFormat } }
      DriverType.DriverType_Device)
    (some { signal_rate := 44100, signal_channels := 2, is_device := true }) true
    (sinkAfterOpen
      { latency := 0, frame_length := 10000000,
        sample_spec := { rate := 44100, channels := 2, format := PcmFormat.Sample_RawFormat } }
      DriverType.DriverType_Device
      (some { signal_rate := 44100, signal_channels := 2, is_device := true }))
    (some { signal_rate := 44100, signal_channels := 2, is_device := true }) true
    SoxSink.init
    (SoxSink.construct
      { latency := 0, frame_length := 10000000,
        sample_spec := { rate := 44100, channels := 2, format := PcmFormat.Sample_RawFormat } }
      DriverType.DriverType_Device)
    (SoxSink.construct
      { latency := 0, frame_length := 10000000,
        sample_spec := { rate := 44100, channels := 2, format := PcmFormat.Sample_RawFormat } }
      DriverType.DriverType_Device)
    none true
    rfl rfl rfl rfl rfl rfl

/-- C8 counterexample: a constructed, never opened sox sink (no stream
exists, no successful open has happened) reports `DeviceState_Active`, not
`DeviceState_Closed`, contradicting the claim that state() is Closed in
every situation where no stream is Ready or Corked. -/
theorem sox_unopened_state_active :
    (SoxSink.construct
        { latency := 0, frame_length := 10000000,
          sample_spec := { rate := 48000, channels := 2, format := PcmFormat.Sample_RawFormat } }
        DriverType.DriverType_Device).output_ = none
    ∧ SoxSink.state (SoxSink.construct
        { latency := 0, frame_length := 10000000,
          sample_spec := { rate := 48000, channels := 2, format := PcmFormat.Sample_RawFormat } }
        DriverType.DriverType_Device) = Except.ok DeviceState.DeviceState_Active
    ∧ DeviceState.DeviceState_Active ≠ DeviceState.DeviceState_Closed :=
  ⟨rfl, rfl, by decide⟩

/-- C8 amended: for the pulseaudio device bridge (modelled from the spec,
its implementation not being among the sources) `state()` is Active
exactly when the stream is Ready or Corked and Closed in every other
stream state; the sox sink, by contrast, reports Active unconditionally,
at every point of its lifetime. -/
theorem bridge_state_active_iff_ready_or_corked :
    (∀ st : StreamState, PulseaudioDevice.state st = DeviceState.DeviceState_Active
        ↔ (st = StreamState.Ready ∨ st = StreamState.Corked))
    ∧ ∀ s : SoxSink, s.state = Except.ok DeviceState.DeviceState_Active := by
  constructor
  · intro st
    cases st <;> simp [PulseaudioDevice.state]
  · intro s
    rfl
